import Mathlib

/-!
Shallow embedding of the transaction-building core of the casper client:
the typed argument constructors (`arg_handling.rs`), the fields container
(`fields_container.rs`), initiator resolution
(`initiator_addr_and_secret_key.rs`) and the `TransactionV1` builder
(`transaction_v1_builder.rs`).  External collaborators (the bytesrepr
encoder, the content-hash function, key derivation and signing) are passed
in explicitly through an `Externals` record, mirroring the trait calls in
the source.
-/

/-- Raw bytes as produced by the external bytesrepr encoder. -/
abbrev Bytes := List Nat

/-- Opaque error of the external bytesrepr encoder; the client discards its
payload via `map_err`. -/
inductive BytesreprError where
  | mk
deriving DecidableEq, Repr

/-- Abstract public keys (external crypto). -/
abbrev PublicKey := Nat

/-- Abstract secret keys (external crypto). -/
abbrev SecretKey := Nat

/-- Abstract unforgeable references. -/
abbrev URef := Nat

/-- Abstract account hashes. -/
abbrev AccountHash := Nat

/-- 512-bit unsigned integers, kept abstract as `Nat`. -/
abbrev U512 := Nat

/-- An auction reservation (`casper_types::system::auction::Reservation`),
with the delegator kind kept abstract. -/
structure Reservation where
  validator : PublicKey
  delegator_kind : Nat
  delegation_rate : Nat
deriving DecidableEq, Repr

/-- Typed values stored in runtime arguments (`casper_types::CLValue`),
restricted to the shapes the argument constructors of this client build. -/
inductive CLValue where
  | bool (b : Bool)
  | u8 (n : Nat)
  | u32 (n : Nat)
  | u64 (n : Nat)
  | u512 (n : Nat)
  | publicKey (pk : PublicKey)
  | uref (u : URef)
  | accountHash (h : AccountHash)
  | reservation (r : Reservation)
  | list (xs : List CLValue)
  | option (v : Option CLValue)

/-- A named argument: a name paired with a typed value. -/
abbrev NamedArg := String × CLValue

/-- `casper_types::RuntimeArgs`: a vector of named arguments. -/
abbrev RuntimeArgs := List NamedArg

/-- Error converting a value into a `CLValue` (external; conversion of the
value shapes used by this client is modelled as never failing). -/
inductive CLValueError where
  | serialization
deriving DecidableEq, Repr

/-- `RuntimeArgs::insert`: converts the value into a `CLValue` (already done
at the call sites of this embedding) and appends it to the vector. -/
def RuntimeArgs.insert (args : RuntimeArgs) (name : String) (value : CLValue) :
    Except CLValueError RuntimeArgs :=
  Except.ok (args ++ [(name, value)])

/-- `RuntimeArgs::get`: the first argument with the given name, if any. -/
def RuntimeArgs.get (args : RuntimeArgs) (name : String) : Option CLValue :=
  (args.find? (fun named_arg => named_arg.1 == name)).map Prod.snd

/-- The list of argument names, in insertion order. -/
def RuntimeArgs.names (args : RuntimeArgs) : List String :=
  args.map Prod.fst

/-- `arg_handling::RequiredArg`: a marker binding a literal name; insertion
always writes. -/
structure RequiredArg where
  name : String

/-- `RequiredArg::insert`. -/
def RequiredArg.insert (arg : RequiredArg) (args : RuntimeArgs) (value : CLValue) :
    Except CLValueError RuntimeArgs :=
  args.insert arg.name value

/-- `arg_handling::OptionalArg`: a marker binding a literal name; the call
sites insert through it only when the caller supplied a value. -/
structure OptionalArg where
  name : String

/-- `OptionalArg::insert`. -/
def OptionalArg.insert (arg : OptionalArg) (args : RuntimeArgs) (value : CLValue) :
    Except CLValueError RuntimeArgs :=
  args.insert arg.name value

/-- `casper_types::TransferTarget`. -/
inductive TransferTarget where
  | publicKey (pk : PublicKey)
  | accountHash (h : AccountHash)
  | uref (u : URef)
deriving DecidableEq, Repr

def TRANSFER_ARG_AMOUNT : RequiredArg := ⟨"amount"⟩

def TRANSFER_ARG_SOURCE : OptionalArg := ⟨"source"⟩

def TRANSFER_ARG_TARGET : String := "target"

/-- Named "id" for legacy reasons: if the argument is passed at the call site,
the whole `Option` is inserted as the value. -/
def TRANSFER_ARG_ID : OptionalArg := ⟨"id"⟩

def ADD_BID_ARG_PUBLIC_KEY : RequiredArg := ⟨"public_key"⟩

def ADD_BID_ARG_DELEGATION_RATE : RequiredArg := ⟨"delegation_rate"⟩

def ADD_BID_ARG_AMOUNT : RequiredArg := ⟨"amount"⟩

def ADD_BID_ARG_MINIMUM_DELEGATION_AMOUNT : OptionalArg := ⟨"minimum_delegation_amount"⟩

def ADD_BID_ARG_MAXIMUM_DELEGATION_AMOUNT : OptionalArg := ⟨"maximum_delegation_amount"⟩

def ADD_BID_ARG_RESERVED_SLOTS : OptionalArg := ⟨"reserved_slots"⟩

def WITHDRAW_BID_ARG_PUBLIC_KEY : RequiredArg := ⟨"public_key"⟩

def WITHDRAW_BID_ARG_AMOUNT : RequiredArg := ⟨"amount"⟩

def DELEGATE_ARG_DELEGATOR : RequiredArg := ⟨"delegator"⟩

def DELEGATE_ARG_VALIDATOR : RequiredArg := ⟨"validator"⟩

def DELEGATE_ARG_AMOUNT : RequiredArg := ⟨"amount"⟩

def UNDELEGATE_ARG_DELEGATOR : RequiredArg := ⟨"delegator"⟩

def UNDELEGATE_ARG_VALIDATOR : RequiredArg := ⟨"validator"⟩

def UNDELEGATE_ARG_AMOUNT : RequiredArg := ⟨"amount"⟩

def REDELEGATE_ARG_DELEGATOR : RequiredArg := ⟨"delegator"⟩

def REDELEGATE_ARG_VALIDATOR : RequiredArg := ⟨"validator"⟩

def REDELEGATE_ARG_AMOUNT : RequiredArg := ⟨"amount"⟩

def REDELEGATE_ARG_NEW_VALIDATOR : RequiredArg := ⟨"new_validator"⟩

/-- `ARG_VALIDATOR` of `casper_types::system::auction` is the literal
"validator". -/
def ACTIVATE_BID_ARG_VALIDATOR : RequiredArg := ⟨"validator"⟩

def CHANGE_BID_PUBLIC_KEY_ARG_PUBLIC_KEY : RequiredArg := ⟨"public_key"⟩

def CHANGE_BID_PUBLIC_KEY_ARG_NEW_PUBLIC_KEY : RequiredArg := ⟨"new_public_key"⟩

def ADD_RESERVATIONS_ARG_RESERVATIONS : RequiredArg := ⟨"reservations"⟩

def CANCEL_RESERVATIONS_ARG_VALIDATOR : RequiredArg := ⟨"validator"⟩

def CANCEL_RESERVATIONS_ARG_DELEGATORS : RequiredArg := ⟨"delegators"⟩

/-- `arg_handling::new_transfer_args`. -/
def new_transfer_args (amount : U512) (maybe_source : Option URef)
    (target : TransferTarget) (maybe_id : Option Nat) :
    Except CLValueError RuntimeArgs :=
  let args : RuntimeArgs := []
  match
    (match maybe_source with
     | some source => TRANSFER_ARG_SOURCE.insert args (CLValue.uref source)
     | none => Except.ok args)
  with
  | Except.error e => Except.error e
  | Except.ok args =>
    match
      (match target with
       | TransferTarget.publicKey public_key =>
           args.insert TRANSFER_ARG_TARGET (CLValue.publicKey public_key)
       | TransferTarget.accountHash account_hash =>
           args.insert TRANSFER_ARG_TARGET (CLValue.accountHash account_hash)
       | TransferTarget.uref uref => args.insert TRANSFER_ARG_TARGET (CLValue.uref uref))
    with
    | Except.error e => Except.error e
    | Except.ok args =>
      match TRANSFER_ARG_AMOUNT.insert args (CLValue.u512 amount) with
      | Except.error e => Except.error e
      | Except.ok args =>
        match
          (if maybe_id.isSome then
             TRANSFER_ARG_ID.insert args (CLValue.option (maybe_id.map CLValue.u64))
           else Except.ok args)
        with
        | Except.error e => Except.error e
        | Except.ok args => Except.ok args

/-- `arg_handling::new_activate_bid_args`. -/
def new_activate_bid_args (validator : PublicKey) : Except CLValueError RuntimeArgs :=
  let args : RuntimeArgs := []
  match ACTIVATE_BID_ARG_VALIDATOR.insert args (CLValue.publicKey validator) with
  | Except.error e => Except.error e
  | Except.ok args => Except.ok args

/-- `arg_handling::new_change_bid_public_key_args`. -/
def new_change_bid_public_key_args (public_key : PublicKey) (new_public_key : PublicKey) :
    Except CLValueError RuntimeArgs :=
  let args : RuntimeArgs := []
  match CHANGE_BID_PUBLIC_KEY_ARG_PUBLIC_KEY.insert args (CLValue.publicKey public_key) with
  | Except.error e => Except.error e
  | Except.ok args =>
    match CHANGE_BID_PUBLIC_KEY_ARG_NEW_PUBLIC_KEY.insert args
        (CLValue.publicKey new_public_key) with
    | Except.error e => Except.error e
    | Except.ok args => Except.ok args

/-- `arg_handling::new_add_reservations_args`. -/
def new_add_reservations_args (reservations : List Reservation) :
    Except CLValueError RuntimeArgs :=
  let args : RuntimeArgs := []
  match ADD_RESERVATIONS_ARG_RESERVATIONS.insert args
      (CLValue.list (reservations.map CLValue.reservation)) with
  | Except.error e => Except.error e
  | Except.ok args => Except.ok args

/-- `arg_handling::new_cancel_reservations_args`. -/
def new_cancel_reservations_args (validator : PublicKey) (delegators : List PublicKey) :
    Except CLValueError RuntimeArgs :=
  let args : RuntimeArgs := []
  match CANCEL_RESERVATIONS_ARG_VALIDATOR.insert args (CLValue.publicKey validator) with
  | Except.error e => Except.error e
  | Except.ok args =>
    match CANCEL_RESERVATIONS_ARG_DELEGATORS.insert args
        (CLValue.list (delegators.map CLValue.publicKey)) with
    | Except.error e => Except.error e
    | Except.ok args => Except.ok args

/-- `arg_handling::new_add_bid_args`. -/
def new_add_bid_args (public_key : PublicKey) (delegation_rate : Nat) (amount : U512)
    (maybe_minimum_delegation_amount : Option Nat)
    (maybe_maximum_delegation_amount : Option Nat)
    (maybe_reserved_slots : Option Nat) : Except CLValueError RuntimeArgs :=
  let args : RuntimeArgs := []
  match ADD_BID_ARG_PUBLIC_KEY.insert args (CLValue.publicKey public_key) with
  | Except.error e => Except.error e
  | Except.ok args =>
    match ADD_BID_ARG_DELEGATION_RATE.insert args (CLValue.u8 delegation_rate) with
    | Except.error e => Except.error e
    | Except.ok args =>
      match ADD_BID_ARG_AMOUNT.insert args (CLValue.u512 amount) with
      | Except.error e => Except.error e
      | Except.ok args =>
        match
          (match maybe_minimum_delegation_amount with
           | some minimum_delegation_amount =>
               ADD_BID_ARG_MINIMUM_DELEGATION_AMOUNT.insert args
                 (CLValue.u64 minimum_delegation_amount)
           | none => Except.ok args)
        with
        | Except.error e => Except.error e
        | Except.ok args =>
          match
            (match maybe_maximum_delegation_amount with
             | some maximum_delegation_amount =>
                 ADD_BID_ARG_MAXIMUM_DELEGATION_AMOUNT.insert args
                   (CLValue.u64 maximum_delegation_amount)
             | none => Except.ok args)
          with
          | Except.error e => Except.error e
          | Except.ok args =>
            match
              (match maybe_reserved_slots with
               | some reserved_slots =>
                   ADD_BID_ARG_RESERVED_SLOTS.insert args (CLValue.u32 reserved_slots)
               | none => Except.ok args)
            with
            | Except.error e => Except.error e
            | Except.ok args => Except.ok args

/-- `arg_handling::new_withdraw_bid_args`. -/
def new_withdraw_bid_args (public_key : PublicKey) (amount : U512) :
    Except CLValueError RuntimeArgs :=
  let args : RuntimeArgs := []
  match WITHDRAW_BID_ARG_PUBLIC_KEY.insert args (CLValue.publicKey public_key) with
  | Except.error e => Except.error e
  | Except.ok args =>
    match WITHDRAW_BID_ARG_AMOUNT.insert args (CLValue.u512 amount) with
    | Except.error e => Except.error e
    | Except.ok args => Except.ok args

/-- `arg_handling::new_delegate_args`. -/
def new_delegate_args (delegator : PublicKey) (validator : PublicKey) (amount : U512) :
    Except CLValueError RuntimeArgs :=
  let args : RuntimeArgs := []
  match DELEGATE_ARG_DELEGATOR.insert args (CLValue.publicKey delegator) with
  | Except.error e => Except.error e
  | Except.ok args =>
    match DELEGATE_ARG_VALIDATOR.insert args (CLValue.publicKey validator) with
    | Except.error e => Except.error e
    | Except.ok args =>
      match DELEGATE_ARG_AMOUNT.insert args (CLValue.u512 amount) with
      | Except.error e => Except.error e
      | Except.ok args => Except.ok args

/-- `arg_handling::new_undelegate_args`. -/
def new_undelegate_args (delegator : PublicKey) (validator : PublicKey) (amount : U512) :
    Except CLValueError RuntimeArgs :=
  let args : RuntimeArgs := []
  match UNDELEGATE_ARG_DELEGATOR.insert args (CLValue.publicKey delegator) with
  | Except.error e => Except.error e
  | Except.ok args =>
    match UNDELEGATE_ARG_VALIDATOR.insert args (CLValue.publicKey validator) with
    | Except.error e => Except.error e
    | Except.ok args =>
      match UNDELEGATE_ARG_AMOUNT.insert args (CLValue.u512 amount) with
      | Except.error e => Except.error e
      | Except.ok args => Except.ok args

/-- `arg_handling::new_redelegate_args`. -/
def new_redelegate_args (delegator : PublicKey) (validator : PublicKey) (amount : U512)
    (new_validator : PublicKey) : Except CLValueError RuntimeArgs :=
  let args : RuntimeArgs := []
  match REDELEGATE_ARG_DELEGATOR.insert args (CLValue.publicKey delegator) with
  | Except.error e => Except.error e
  | Except.ok args =>
    match REDELEGATE_ARG_VALIDATOR.insert args (CLValue.publicKey validator) with
    | Except.error e => Except.error e
    | Except.ok args =>
      match REDELEGATE_ARG_AMOUNT.insert args (CLValue.u512 amount) with
      | Except.error e => Except.error e
      | Except.ok args =>
        match REDELEGATE_ARG_NEW_VALIDATOR.insert args (CLValue.publicKey new_validator) with
        | Except.error e => Except.error e
        | Except.ok args => Except.ok args


/-- `casper_types::TransactionArgs`: named runtime args or pre-encoded raw
bytes, mutually exclusive. -/
inductive TransactionArgs where
  | named (args : RuntimeArgs)
  | bytesrepr (bytes : Bytes)

/-- `casper_types::TransactionInvocationTarget`. -/
inductive TransactionInvocationTarget where
  | byHash (addr : Nat)
  | byName (name : String)
  | byPackageHash (addr : Nat) (version : Option Nat)
  | byPackageName (name : String) (version : Option Nat)
deriving DecidableEq, Repr

/-- `TransactionInvocationTarget::new_invocable_entity`. -/
def TransactionInvocationTarget.new_invocable_entity (hash : Nat) :
    TransactionInvocationTarget :=
  TransactionInvocationTarget.byHash hash

/-- `TransactionInvocationTarget::new_invocable_entity_alias`. -/
def TransactionInvocationTarget.new_invocable_entity_alias (alias_name : String) :
    TransactionInvocationTarget :=
  TransactionInvocationTarget.byName alias_name

/-- `TransactionInvocationTarget::new_package`. -/
def TransactionInvocationTarget.new_package (hash : Nat) (version : Option Nat) :
    TransactionInvocationTarget :=
  TransactionInvocationTarget.byPackageHash hash version

/-- `TransactionInvocationTarget::new_package_alias`. -/
def TransactionInvocationTarget.new_package_alias (alias_name : String) (version : Option Nat) :
    TransactionInvocationTarget :=
  TransactionInvocationTarget.byPackageName alias_name version

/-- Runtime-environment parameters for stored/session targets, kept opaque. -/
abbrev TransactionRuntimeParams := Nat

/-- `casper_types::TransactionTarget`. -/
inductive TransactionTarget where
  | native
  | stored (id : TransactionInvocationTarget) (runtime : TransactionRuntimeParams)
  | session (is_install_upgrade : Bool) (module_bytes : Bytes)
      (runtime : TransactionRuntimeParams)

/-- `casper_types::TransactionEntryPoint`. -/
inductive TransactionEntryPoint where
  | call
  | custom (name : String)
  | transfer
  | addBid
  | withdrawBid
  | delegate
  | undelegate
  | redelegate
  | activateBid
  | changeBidPublicKey
  | addReservations
  | cancelReservations
deriving DecidableEq, Repr

/-- `casper_types::TransactionScheduling`. -/
inductive TransactionScheduling where
  | standard
  | futureEra (era_id : Nat)
deriving DecidableEq, Repr

/-- `casper_types::PricingMode`. -/
inductive PricingMode where
  | paymentLimited (payment_amount : Nat) (gas_price_tolerance : Nat)
      (standard_payment : Bool)
  | fixed (gas_price_tolerance : Nat) (additional_computation_factor : Nat)
  | prepaid (receipt : Nat)
deriving DecidableEq, Repr

/-- `casper_types::InitiatorAddr`. -/
inductive InitiatorAddr where
  | publicKey (pk : PublicKey)
  | accountHash (h : AccountHash)
deriving DecidableEq, Repr

/-- Milliseconds since epoch. -/
abbrev Timestamp := Nat

/-- A duration in milliseconds. -/
abbrev TimeDiff := Nat

/-- A content hash produced by the external `Digest::hash`. -/
abbrev Digest := Bytes

/-- An approval: a signer public key paired with a signature. -/
structure Approval where
  signer : PublicKey
  signature : Nat
deriving DecidableEq, Repr

/-- External collaborators of the builder core: the bytesrepr encoder for
each of the four payload fields and for the whole payload, the content-hash
function, public-key derivation and signing.  The client code reaches them
through traits; this embedding passes them explicitly. -/
structure Externals where
  argsToBytes : TransactionArgs → Except BytesreprError Bytes
  targetToBytes : TransactionTarget → Except BytesreprError Bytes
  entryPointToBytes : TransactionEntryPoint → Except BytesreprError Bytes
  schedulingToBytes : TransactionScheduling → Except BytesreprError Bytes
  payloadToBytes : String → Timestamp → TimeDiff → PricingMode → InitiatorAddr →
    List (Nat × Bytes) → Bytes
  digestHash : Bytes → Digest
  publicKeyFromSecret : SecretKey → PublicKey
  signHash : SecretKey → Digest → Nat

/-- `fields_container::ARGS_MAP_KEY`. -/
def ARGS_MAP_KEY : Nat := 0

/-- `fields_container::TARGET_MAP_KEY`. -/
def TARGET_MAP_KEY : Nat := 1

/-- `fields_container::ENTRY_POINT_MAP_KEY`. -/
def ENTRY_POINT_MAP_KEY : Nat := 2

/-- `fields_container::SCHEDULING_MAP_KEY`. -/
def SCHEDULING_MAP_KEY : Nat := 3

/-- `fields_container::FieldsContainerError`. -/
inductive FieldsContainerError where
  | couldNotSerializeField (field_index : Nat)
deriving DecidableEq, Repr

/-- The key-indexed byte map holding the serialized payload fields. -/
abbrev FieldsMap := List (Nat × Bytes)

/-- Key-ordered insertion, mirroring `BTreeMap::insert` on `u16` keys over a
sorted association list. -/
def FieldsMap.insert (key : Nat) (value : Bytes) : FieldsMap → FieldsMap
  | [] => [(key, value)]
  | entry :: rest =>
    if key < entry.1 then (key, value) :: entry :: rest
    else if key = entry.1 then (key, value) :: rest
    else entry :: FieldsMap.insert key value rest

/-- The keys of a fields map. -/
def FieldsMap.keys (map : FieldsMap) : List Nat :=
  map.map Prod.fst

/-- `fields_container::FieldsContainer`. -/
structure FieldsContainer where
  args : TransactionArgs
  target : TransactionTarget
  entry_point : TransactionEntryPoint
  scheduling : TransactionScheduling

/-- `FieldsContainer::new`. -/
def FieldsContainer.new (args : TransactionArgs) (target : TransactionTarget)
    (entry_point : TransactionEntryPoint) (scheduling : TransactionScheduling) :
    FieldsContainer :=
  ⟨args, target, entry_point, scheduling⟩

/-- `FieldsContainer::to_map`: serializes the four fields in key order,
inserting each into the map; the first failure aborts with an error naming
the failing field's key. -/
def FieldsContainer.to_map (ext : Externals) (c : FieldsContainer) :
    Except FieldsContainerError FieldsMap :=
  let map : FieldsMap := []
  match ext.argsToBytes c.args with
  | Except.error _ =>
      Except.error (FieldsContainerError.couldNotSerializeField ARGS_MAP_KEY)
  | Except.ok args_bytes =>
    let map := FieldsMap.insert ARGS_MAP_KEY args_bytes map
    match ext.targetToBytes c.target with
    | Except.error _ =>
        Except.error (FieldsContainerError.couldNotSerializeField TARGET_MAP_KEY)
    | Except.ok target_bytes =>
      let map := FieldsMap.insert TARGET_MAP_KEY target_bytes map
      match ext.entryPointToBytes c.entry_point with
      | Except.error _ =>
          Except.error (FieldsContainerError.couldNotSerializeField ENTRY_POINT_MAP_KEY)
      | Except.ok entry_point_bytes =>
        let map := FieldsMap.insert ENTRY_POINT_MAP_KEY entry_point_bytes map
        match ext.schedulingToBytes c.scheduling with
        | Except.error _ =>
            Except.error (FieldsContainerError.couldNotSerializeField SCHEDULING_MAP_KEY)
        | Except.ok scheduling_bytes =>
          Except.ok (FieldsMap.insert SCHEDULING_MAP_KEY scheduling_bytes map)

/-- `types::InitiatorAddrAndSecretKey`. -/
inductive InitiatorAddrAndSecretKey where
  | both (initiator_addr : InitiatorAddr) (secret_key : SecretKey)
  | initiatorAddr (initiator_addr : InitiatorAddr)
  | secretKey (secret_key : SecretKey)
deriving DecidableEq, Repr

/-- `InitiatorAddrAndSecretKey::initiator_addr`: the supplied address, or the
address derived from the secret key's public key. -/
def InitiatorAddrAndSecretKey.initiator_addr (ext : Externals) :
    InitiatorAddrAndSecretKey → InitiatorAddr
  | InitiatorAddrAndSecretKey.both initiator_addr _ => initiator_addr
  | InitiatorAddrAndSecretKey.initiatorAddr initiator_addr => initiator_addr
  | InitiatorAddrAndSecretKey.secretKey secret_key =>
      InitiatorAddr.publicKey (ext.publicKeyFromSecret secret_key)

/-- `InitiatorAddrAndSecretKey::secret_key`. -/
def InitiatorAddrAndSecretKey.secret_key :
    InitiatorAddrAndSecretKey → Option SecretKey
  | InitiatorAddrAndSecretKey.both _ secret_key => some secret_key
  | InitiatorAddrAndSecretKey.secretKey secret_key => some secret_key
  | InitiatorAddrAndSecretKey.initiatorAddr _ => none

/-- `casper_types::TransactionV1Payload`. -/
structure TransactionV1Payload where
  chain_name : String
  timestamp : Timestamp
  ttl : TimeDiff
  pricing_mode : PricingMode
  initiator_addr : InitiatorAddr
  fields : FieldsMap
deriving DecidableEq, Repr

/-- `casper_types::TransactionV1`: content hash, payload, approvals. -/
structure TransactionV1 where
  hash : Digest
  payload : TransactionV1Payload
  approvals : List Approval
deriving DecidableEq, Repr

/-- `TransactionV1::sign`: derives the signer's public key, signs the hash
and inserts the approval with set semantics (a duplicate pair does not grow
the set). -/
def TransactionV1.sign (ext : Externals) (t : TransactionV1) (secret_key : SecretKey) :
    TransactionV1 :=
  let approval : Approval :=
    ⟨ext.publicKeyFromSecret secret_key, ext.signHash secret_key t.hash⟩
  { t with approvals :=
      if approval ∈ t.approvals then t.approvals else t.approvals ++ [approval] }

/-- `transaction_v1_builder::error::TransactionV1BuilderError`. -/
inductive TransactionV1BuilderError where
  | missingInitiatorAddr
  | missingChainName
  | couldNotSerializeField (field_index : Nat)
deriving DecidableEq, Repr

/-- `transaction_v1_builder::TransactionV1Builder`. -/
structure TransactionV1Builder where
  args : TransactionArgs
  target : TransactionTarget
  scheduling : TransactionScheduling
  entry_point : TransactionEntryPoint
  chain_name : Option String
  timestamp : Timestamp
  ttl : TimeDiff
  pricing_mode : PricingMode
  initiator_addr : Option InitiatorAddr
  secret_key : Option SecretKey

/-- `TransactionV1Builder::DEFAULT_TTL`: 30 minutes in milliseconds. -/
def TransactionV1Builder.DEFAULT_TTL : TimeDiff := 30 * 60 * 1000

/-- `TransactionV1Builder::DEFAULT_PRICING_MODE`: fixed cost with gas price
tolerance 5 and zero additional computation factor. -/
def TransactionV1Builder.DEFAULT_PRICING_MODE : PricingMode :=
  PricingMode.fixed 5 0

/-- `TransactionV1Builder::DEFAULT_SCHEDULING`. -/
def TransactionV1Builder.DEFAULT_SCHEDULING : TransactionScheduling :=
  TransactionScheduling.standard

/-- `TransactionV1Builder::new`: the clock read (`Timestamp::now`, or
`Timestamp::zero` without the std feature) is passed in as `now`. -/
def TransactionV1Builder.new (now : Timestamp) : TransactionV1Builder :=
  { args := TransactionArgs.named []
    target := TransactionTarget.native
    scheduling := TransactionScheduling.standard
    entry_point := TransactionEntryPoint.transfer
    chain_name := none
    timestamp := now
    ttl := TransactionV1Builder.DEFAULT_TTL
    pricing_mode := TransactionV1Builder.DEFAULT_PRICING_MODE
    initiator_addr := none
    secret_key := none }

/-- `TransactionV1Builder::new_transfer`. -/
def TransactionV1Builder.new_transfer (now : Timestamp) (amount : U512)
    (maybe_source : Option URef) (target : TransferTarget) (maybe_id : Option Nat) :
    Except CLValueError TransactionV1Builder :=
  match new_transfer_args amount maybe_source target maybe_id with
  | Except.error e => Except.error e
  | Except.ok args =>
    let builder := TransactionV1Builder.new now
    Except.ok { builder with
      args := TransactionArgs.named args
      target := TransactionTarget.native
      entry_point := TransactionEntryPoint.transfer
      scheduling := TransactionV1Builder.DEFAULT_SCHEDULING }

/-- `TransactionV1Builder::new_add_bid`. -/
def TransactionV1Builder.new_add_bid (now : Timestamp) (public_key : PublicKey)
    (delegation_rate : Nat) (amount : U512) (minimum_delegation_amount : Option Nat)
    (maximum_delegation_amount : Option Nat) (reserved_slots : Option Nat) :
    Except CLValueError TransactionV1Builder :=
  match new_add_bid_args public_key delegation_rate amount minimum_delegation_amount
      maximum_delegation_amount reserved_slots with
  | Except.error e => Except.error e
  | Except.ok args =>
    let builder := TransactionV1Builder.new now
    Except.ok { builder with
      args := TransactionArgs.named args
      target := TransactionTarget.native
      entry_point := TransactionEntryPoint.addBid
      scheduling := TransactionV1Builder.DEFAULT_SCHEDULING }

/-- `TransactionV1Builder::new_withdraw_bid`. -/
def TransactionV1Builder.new_withdraw_bid (now : Timestamp) (public_key : PublicKey)
    (amount : U512) : Except CLValueError TransactionV1Builder :=
  match new_withdraw_bid_args public_key amount with
  | Except.error e => Except.error e
  | Except.ok args =>
    let builder := TransactionV1Builder.new now
    Except.ok { builder with
      args := TransactionArgs.named args
      target := TransactionTarget.native
      entry_point := TransactionEntryPoint.withdrawBid
      scheduling := TransactionV1Builder.DEFAULT_SCHEDULING }

/-- `TransactionV1Builder::new_delegate`. -/
def TransactionV1Builder.new_delegate (now : Timestamp) (delegator : PublicKey)
    (validator : PublicKey) (amount : U512) : Except CLValueError TransactionV1Builder :=
  match new_delegate_args delegator validator amount with
  | Except.error e => Except.error e
  | Except.ok args =>
    let builder := TransactionV1Builder.new now
    Except.ok { builder with
      args := TransactionArgs.named args
      target := TransactionTarget.native
      entry_point := TransactionEntryPoint.delegate
      scheduling := TransactionV1Builder.DEFAULT_SCHEDULING }

/-- `TransactionV1Builder::new_undelegate`. -/
def TransactionV1Builder.new_undelegate (now : Timestamp) (delegator : PublicKey)
    (validator : PublicKey) (amount : U512) : Except CLValueError TransactionV1Builder :=
  match new_undelegate_args delegator validator amount with
  | Except.error e => Except.error e
  | Except.ok args =>
    let builder := TransactionV1Builder.new now
    Except.ok { builder with
      args := TransactionArgs.named args
      target := TransactionTarget.native
      entry_point := TransactionEntryPoint.undelegate
      scheduling := TransactionV1Builder.DEFAULT_SCHEDULING }

/-- `TransactionV1Builder::new_redelegate`. -/
def TransactionV1Builder.new_redelegate (now : Timestamp) (delegator : PublicKey)
    (validator : PublicKey) (amount : U512) (new_validator : PublicKey) :
    Except CLValueError TransactionV1Builder :=
  match new_redelegate_args delegator validator amount new_validator with
  | Except.error e => Except.error e
  | Except.ok args =>
    let builder := TransactionV1Builder.new now
    Except.ok { builder with
      args := TransactionArgs.named args
      target := TransactionTarget.native
      entry_point := TransactionEntryPoint.redelegate
      scheduling := TransactionV1Builder.DEFAULT_SCHEDULING }

/-- `TransactionV1Builder::new_activate_bid`. -/
def TransactionV1Builder.new_activate_bid (now : Timestamp) (validator : PublicKey) :
    Except CLValueError TransactionV1Builder :=
  match new_activate_bid_args validator with
  | Except.error e => Except.error e
  | Except.ok args =>
    let builder := TransactionV1Builder.new now
    Except.ok { builder with
      args := TransactionArgs.named args
      target := TransactionTarget.native
      entry_point := TransactionEntryPoint.activateBid
      scheduling := TransactionV1Builder.DEFAULT_SCHEDULING }

/-- `TransactionV1Builder::new_change_bid_public_key`. -/
def TransactionV1Builder.new_change_bid_public_key (now : Timestamp)
    (public_key : PublicKey) (new_public_key : PublicKey) :
    Except CLValueError TransactionV1Builder :=
  match new_change_bid_public_key_args public_key new_public_key with
  | Except.error e => Except.error e
  | Except.ok args =>
    let builder := TransactionV1Builder.new now
    Except.ok { builder with
      args := TransactionArgs.named args
      target := TransactionTarget.native
      entry_point := TransactionEntryPoint.changeBidPublicKey
      scheduling := TransactionV1Builder.DEFAULT_SCHEDULING }

/-- `TransactionV1Builder::new_add_reservations`. -/
def TransactionV1Builder.new_add_reservations (now : Timestamp)
    (reservations : List Reservation) : Except CLValueError TransactionV1Builder :=
  match new_add_reservations_args reservations with
  | Except.error e => Except.error e
  | Except.ok args =>
    let builder := TransactionV1Builder.new now
    Except.ok { builder with
      args := TransactionArgs.named args
      target := TransactionTarget.native
      entry_point := TransactionEntryPoint.addReservations
      scheduling := TransactionV1Builder.DEFAULT_SCHEDULING }

/-- `TransactionV1Builder::new_cancel_reservations`. -/
def TransactionV1Builder.new_cancel_reservations (now : Timestamp)
    (validator : PublicKey) (delegators : List PublicKey) :
    Except CLValueError TransactionV1Builder :=
  match new_cancel_reservations_args validator delegators with
  | Except.error e => Except.error e
  | Except.ok args =>
    let builder := TransactionV1Builder.new now
    Except.ok { builder with
      args := TransactionArgs.named args
      target := TransactionTarget.native
      entry_point := TransactionEntryPoint.cancelReservations
      scheduling := TransactionV1Builder.DEFAULT_SCHEDULING }

/-- `TransactionV1Builder::new_targeting_stored`: shared helper of the four
stored-target constructors; total, with empty named args and a custom entry
point. -/
def TransactionV1Builder.new_targeting_stored (now : Timestamp)
    (id : TransactionInvocationTarget) (entry_point : String)
    (runtime : TransactionRuntimeParams) : TransactionV1Builder :=
  let target := TransactionTarget.stored id runtime
  let builder := TransactionV1Builder.new now
  { builder with
    args := TransactionArgs.named []
    target := target
    entry_point := TransactionEntryPoint.custom entry_point
    scheduling := TransactionV1Builder.DEFAULT_SCHEDULING }

/-- `TransactionV1Builder::new_targeting_invocable_entity`. -/
def TransactionV1Builder.new_targeting_invocable_entity (now : Timestamp) (hash : Nat)
    (entry_point : String) (runtime : TransactionRuntimeParams) : TransactionV1Builder :=
  let id := TransactionInvocationTarget.new_invocable_entity hash
  TransactionV1Builder.new_targeting_stored now id entry_point runtime

/-- `TransactionV1Builder::new_targeting_invocable_entity_via_alias`. -/
def TransactionV1Builder.new_targeting_invocable_entity_via_alias (now : Timestamp)
    (alias_name : String) (entry_point : String) (runtime : TransactionRuntimeParams) :
    TransactionV1Builder :=
  let id := TransactionInvocationTarget.new_invocable_entity_alias alias_name
  TransactionV1Builder.new_targeting_stored now id entry_point runtime

/-- `TransactionV1Builder::new_targeting_package`. -/
def TransactionV1Builder.new_targeting_package (now : Timestamp) (hash : Nat)
    (version : Option Nat) (entry_point : String) (runtime : TransactionRuntimeParams) :
    TransactionV1Builder :=
  let id := TransactionInvocationTarget.new_package hash version
  TransactionV1Builder.new_targeting_stored now id entry_point runtime

/-- `TransactionV1Builder::new_targeting_package_via_alias`. -/
def TransactionV1Builder.new_targeting_package_via_alias (now : Timestamp)
    (alias_name : String) (version : Option Nat) (entry_point : String)
    (runtime : TransactionRuntimeParams) : TransactionV1Builder :=
  let id := TransactionInvocationTarget.new_package_alias alias_name version
  TransactionV1Builder.new_targeting_stored now id entry_point runtime

/-- `TransactionV1Builder::new_session`: total, with empty named args and the
`Call` entry point. -/
def TransactionV1Builder.new_session (now : Timestamp) (is_install_upgrade : Bool)
    (module_bytes : Bytes) (runtime : TransactionRuntimeParams) : TransactionV1Builder :=
  let target := TransactionTarget.session is_install_upgrade module_bytes runtime
  let builder := TransactionV1Builder.new now
  { builder with
    args := TransactionArgs.named []
    target := target
    entry_point := TransactionEntryPoint.call
    scheduling := TransactionV1Builder.DEFAULT_SCHEDULING }

/-- `TransactionV1Builder::with_chain_name`. -/
def TransactionV1Builder.with_chain_name (b : TransactionV1Builder) (chain_name : String) :
    TransactionV1Builder :=
  { b with chain_name := some chain_name }

/-- `TransactionV1Builder::with_timestamp`. -/
def TransactionV1Builder.with_timestamp (b : TransactionV1Builder) (timestamp : Timestamp) :
    TransactionV1Builder :=
  { b with timestamp := timestamp }

/-- `TransactionV1Builder::with_ttl`. -/
def TransactionV1Builder.with_ttl (b : TransactionV1Builder) (ttl : TimeDiff) :
    TransactionV1Builder :=
  { b with ttl := ttl }

/-- `TransactionV1Builder::with_pricing_mode`. -/
def TransactionV1Builder.with_pricing_mode (b : TransactionV1Builder)
    (pricing_mode : PricingMode) : TransactionV1Builder :=
  { b with pricing_mode := pricing_mode }

/-- `TransactionV1Builder::with_initiator_addr`. -/
def TransactionV1Builder.with_initiator_addr (b : TransactionV1Builder)
    (initiator_addr : InitiatorAddr) : TransactionV1Builder :=
  { b with initiator_addr := some initiator_addr }

/-- `TransactionV1Builder::with_secret_key` (production path: the key is
stored by reference). -/
def TransactionV1Builder.with_secret_key (b : TransactionV1Builder)
    (secret_key : SecretKey) : TransactionV1Builder :=
  { b with secret_key := some secret_key }

/-- `TransactionV1Builder::with_runtime_args`: overwrites the args wholesale
with named args. -/
def TransactionV1Builder.with_runtime_args (b : TransactionV1Builder)
    (args : RuntimeArgs) : TransactionV1Builder :=
  { b with args := TransactionArgs.named args }

/-- `TransactionV1Builder::with_chunked_args`: overwrites the args wholesale
with raw bytes. -/
def TransactionV1Builder.with_chunked_args (b : TransactionV1Builder) (args : Bytes) :
    TransactionV1Builder :=
  { b with args := TransactionArgs.bytesrepr args }

/-- `TransactionV1Builder::with_entry_point`. -/
def TransactionV1Builder.with_entry_point (b : TransactionV1Builder)
    (entry_point : TransactionEntryPoint) : TransactionV1Builder :=
  { b with entry_point := entry_point }

/-- `TransactionV1Builder::build_transaction_inner`: assembles the payload,
hashes its serialization, constructs the transaction with an empty approval
set and signs it when a secret key was resolved. -/
def TransactionV1Builder.build_transaction_inner (ext : Externals) (chain_name : String)
    (timestamp : Timestamp) (ttl : TimeDiff) (pricing_mode : PricingMode)
    (fields : FieldsMap) (initiator_addr_and_secret_key : InitiatorAddrAndSecretKey) :
    TransactionV1 :=
  let initiator_addr := initiator_addr_and_secret_key.initiator_addr ext
  let transaction_v1_payload : TransactionV1Payload :=
    ⟨chain_name, timestamp, ttl, pricing_mode, initiator_addr, fields⟩
  let hash := ext.digestHash
    (ext.payloadToBytes chain_name timestamp ttl pricing_mode initiator_addr fields)
  let transaction : TransactionV1 := ⟨hash, transaction_v1_payload, []⟩
  match initiator_addr_and_secret_key.secret_key with
  | some secret_key => transaction.sign ext secret_key
  | none => transaction

/-- `TransactionV1Builder::do_build`: resolves the identity first (failing
with `MissingInitiatorAddr` when neither address nor key is present), then
requires the chain name, then serializes the fields, then assembles. -/
def TransactionV1Builder.do_build (ext : Externals) (b : TransactionV1Builder) :
    Except TransactionV1BuilderError TransactionV1 :=
  match
    (match b.initiator_addr, b.secret_key with
     | some initiator_addr, some secret_key =>
         some (InitiatorAddrAndSecretKey.both initiator_addr secret_key)
     | some initiator_addr, none =>
         some (InitiatorAddrAndSecretKey.initiatorAddr initiator_addr)
     | none, some secret_key => some (InitiatorAddrAndSecretKey.secretKey secret_key)
     | none, none => none)
  with
  | none => Except.error TransactionV1BuilderError.missingInitiatorAddr
  | some initiator_addr_and_secret_key =>
    match b.chain_name with
    | none => Except.error TransactionV1BuilderError.missingChainName
    | some chain_name =>
      match
        FieldsContainer.to_map ext
          (FieldsContainer.new b.args b.target b.entry_point b.scheduling)
      with
      | Except.error (FieldsContainerError.couldNotSerializeField field_index) =>
          Except.error (TransactionV1BuilderError.couldNotSerializeField field_index)
      | Except.ok container =>
          Except.ok (TransactionV1Builder.build_transaction_inner ext chain_name
            b.timestamp b.ttl b.pricing_mode container initiator_addr_and_secret_key)

/-- `TransactionV1Builder::build`. -/
def TransactionV1Builder.build (ext : Externals) (b : TransactionV1Builder) :
    Except TransactionV1BuilderError TransactionV1 :=
  b.do_build ext

/-- Modelled from the spec: `MAX_SERIALIZED_SIZE_OF_DEPLOY`, the fixed
maximum serialized size of a deploy; the constant's definition is not under
the sources provided, only its test (`should_fail_to_create_large_deploy`),
which drives the serialized size just above 1048576 bytes. -/
def MAX_SERIALIZED_SIZE_OF_DEPLOY : Nat := 1048576

/-- `DeployExcessiveSizeError`: reports the configured maximum and the
actual computed size. -/
structure DeployExcessiveSizeError where
  max_transaction_size : Nat
  actual_deploy_size : Nat
deriving DecidableEq, Repr

/-- Modelled from the spec: the deploy builder's post-serialization size
check (the deploy builder itself is not under the sources provided).  After
full serialization, the total size is compared against the fixed maximum;
exceeding it fails with an error carrying both the configured maximum and
the actual size, and no deploy value is returned. -/
def deploy_size_check {α : Type} (deploy : α) (serialized_size : Nat) :
    Except DeployExcessiveSizeError α :=
  if MAX_SERIALIZED_SIZE_OF_DEPLOY < serialized_size then
    Except.error ⟨MAX_SERIALIZED_SIZE_OF_DEPLOY, serialized_size⟩
  else
    Except.ok deploy

/-- A demonstration instantiation of the external collaborators, used to
exercise the builder on concrete inputs. -/
def extDemo : Externals where
  argsToBytes := fun _ => Except.ok []
  targetToBytes := fun _ => Except.ok []
  entryPointToBytes := fun _ => Except.ok []
  schedulingToBytes := fun _ => Except.ok []
  payloadToBytes := fun _ _ _ _ _ _ => []
  digestHash := fun bytes => bytes
  publicKeyFromSecret := fun secret_key => secret_key
  signHash := fun secret_key _ => secret_key + 1000

/-- C7: a freshly constructed `TransactionV1Builder` has exactly the default
state: empty named args, `Native` target, `Transfer` entry point, `Standard`
scheduling, no chain name, a 30-minute ttl, fixed-cost pricing with the
default tolerance (5) and zero additional computation factor, no initiator
address and no secret key. -/
theorem new_builder_default_state (now : Timestamp) :
    (TransactionV1Builder.new now).args = TransactionArgs.named [] ∧
    (TransactionV1Builder.new now).target = TransactionTarget.native ∧
    (TransactionV1Builder.new now).entry_point = TransactionEntryPoint.transfer ∧
    (TransactionV1Builder.new now).scheduling = TransactionScheduling.standard ∧
    (TransactionV1Builder.new now).chain_name = none ∧
    (TransactionV1Builder.new now).ttl = 30 * 60 * 1000 ∧
    (TransactionV1Builder.new now).pricing_mode = PricingMode.fixed 5 0 ∧
    (TransactionV1Builder.new now).initiator_addr = none ∧
    (TransactionV1Builder.new now).secret_key = none :=
  ⟨rfl, rfl, rfl, rfl, rfl, rfl, rfl, rfl, rfl⟩

/-- C9: every chainable mutator of `TransactionV1Builder` changes only the
field it names and leaves every other field of the builder unchanged. -/
theorem chainable_mutators_change_only_named_field (b : TransactionV1Builder)
    (chain_name : String) (timestamp : Timestamp) (ttl : TimeDiff)
    (pricing_mode : PricingMode) (initiator_addr : InitiatorAddr)
    (secret_key : SecretKey) (runtime_args : RuntimeArgs) (chunked : Bytes)
    (entry_point : TransactionEntryPoint) :
    ((b.with_chain_name chain_name).args = b.args ∧
      (b.with_chain_name chain_name).target = b.target ∧
      (b.with_chain_name chain_name).scheduling = b.scheduling ∧
      (b.with_chain_name chain_name).entry_point = b.entry_point ∧
      (b.with_chain_name chain_name).timestamp = b.timestamp ∧
      (b.with_chain_name chain_name).ttl = b.ttl ∧
      (b.with_chain_name chain_name).pricing_mode = b.pricing_mode ∧
      (b.with_chain_name chain_name).initiator_addr = b.initiator_addr ∧
      (b.with_chain_name chain_name).secret_key = b.secret_key) ∧
    ((b.with_timestamp timestamp).args = b.args ∧
      (b.with_timestamp timestamp).target = b.target ∧
      (b.with_timestamp timestamp).scheduling = b.scheduling ∧
      (b.with_timestamp timestamp).entry_point = b.entry_point ∧
      (b.with_timestamp timestamp).chain_name = b.chain_name ∧
      (b.with_timestamp timestamp).ttl = b.ttl ∧
      (b.with_timestamp timestamp).pricing_mode = b.pricing_mode ∧
      (b.with_timestamp timestamp).initiator_addr = b.initiator_addr ∧
      (b.with_timestamp timestamp).secret_key = b.secret_key) ∧
    ((b.with_ttl ttl).args = b.args ∧
      (b.with_ttl ttl).target = b.target ∧
      (b.with_ttl ttl).scheduling = b.scheduling ∧
      (b.with_ttl ttl).entry_point = b.entry_point ∧
      (b.with_ttl ttl).chain_name = b.chain_name ∧
      (b.with_ttl ttl).timestamp = b.timestamp ∧
      (b.with_ttl ttl).pricing_mode = b.pricing_mode ∧
      (b.with_ttl ttl).initiator_addr = b.initiator_addr ∧
      (b.with_ttl ttl).secret_key = b.secret_key) ∧
    ((b.with_pricing_mode pricing_mode).args = b.args ∧
      (b.with_pricing_mode pricing_mode).target = b.target ∧
      (b.with_pricing_mode pricing_mode).scheduling = b.scheduling ∧
      (b.with_pricing_mode pricing_mode).entry_point = b.entry_point ∧
      (b.with_pricing_mode pricing_mode).chain_name = b.chain_name ∧
      (b.with_pricing_mode pricing_mode).timestamp = b.timestamp ∧
      (b.with_pricing_mode pricing_mode).ttl = b.ttl ∧
      (b.with_pricing_mode pricing_mode).initiator_addr = b.initiator_addr ∧
      (b.with_pricing_mode pricing_mode).secret_key = b.secret_key) ∧
    ((b.with_initiator_addr initiator_addr).args = b.args ∧
      (b.with_initiator_addr initiator_addr).target = b.target ∧
      (b.with_initiator_addr initiator_addr).scheduling = b.scheduling ∧
      (b.with_initiator_addr initiator_addr).entry_point = b.entry_point ∧
      (b.with_initiator_addr initiator_addr).chain_name = b.chain_name ∧
      (b.with_initiator_addr initiator_addr).timestamp = b.timestamp ∧
      (b.with_initiator_addr initiator_addr).ttl = b.ttl ∧
      (b.with_initiator_addr initiator_addr).pricing_mode = b.pricing_mode ∧
      (b.with_initiator_addr initiator_addr).secret_key = b.secret_key) ∧
    ((b.with_secret_key secret_key).args = b.args ∧
      (b.with_secret_key secret_key).target = b.target ∧
      (b.with_secret_key secret_key).scheduling = b.scheduling ∧
      (b.with_secret_key secret_key).entry_point = b.entry_point ∧
      (b.with_secret_key secret_key).chain_name = b.chain_name ∧
      (b.with_secret_key secret_key).timestamp = b.timestamp ∧
      (b.with_secret_key secret_key).ttl = b.ttl ∧
      (b.with_secret_key secret_key).pricing_mode = b.pricing_mode ∧
      (b.with_secret_key secret_key).initiator_addr = b.initiator_addr) ∧
    ((b.with_runtime_args runtime_args).target = b.target ∧
      (b.with_runtime_args runtime_args).scheduling = b.scheduling ∧
      (b.with_runtime_args runtime_args).entry_point = b.entry_point ∧
      (b.with_runtime_args runtime_args).chain_name = b.chain_name ∧
      (b.with_runtime_args runtime_args).timestamp = b.timestamp ∧
      (b.with_runtime_args runtime_args).ttl = b.ttl ∧
      (b.with_runtime_args runtime_args).pricing_mode = b.pricing_mode ∧
      (b.with_runtime_args runtime_args).initiator_addr = b.initiator_addr ∧
      (b.with_runtime_args runtime_args).secret_key = b.secret_key) ∧
    ((b.with_chunked_args chunked).target = b.target ∧
      (b.with_chunked_args chunked).scheduling = b.scheduling ∧
      (b.with_chunked_args chunked).entry_point = b.entry_point ∧
      (b.with_chunked_args chunked).chain_name = b.chain_name ∧
      (b.with_chunked_args chunked).timestamp = b.timestamp ∧
      (b.with_chunked_args chunked).ttl = b.ttl ∧
      (b.with_chunked_args chunked).pricing_mode = b.pricing_mode ∧
      (b.with_chunked_args chunked).initiator_addr = b.initiator_addr ∧
      (b.with_chunked_args chunked).secret_key = b.secret_key) ∧
    ((b.with_entry_point entry_point).args = b.args ∧
      (b.with_entry_point entry_point).target = b.target ∧
      (b.with_entry_point entry_point).scheduling = b.scheduling ∧
      (b.with_entry_point entry_point).chain_name = b.chain_name ∧
      (b.with_entry_point entry_point).timestamp = b.timestamp ∧
      (b.with_entry_point entry_point).ttl = b.ttl ∧
      (b.with_entry_point entry_point).pricing_mode = b.pricing_mode ∧
      (b.with_entry_point entry_point).initiator_addr = b.initiator_addr ∧
      (b.with_entry_point entry_point).secret_key = b.secret_key) :=
  ⟨⟨rfl, rfl, rfl, rfl, rfl, rfl, rfl, rfl, rfl⟩, ⟨rfl, rfl, rfl, rfl, rfl, rfl, rfl, rfl, rfl⟩, ⟨rfl, rfl, rfl, rfl, rfl, rfl, rfl, rfl, rfl⟩, ⟨rfl, rfl, rfl, rfl, rfl, rfl, rfl, rfl, rfl⟩, ⟨rfl, rfl, rfl, rfl, rfl, rfl, rfl, rfl, rfl⟩, ⟨rfl, rfl, rfl, rfl, rfl, rfl, rfl, rfl, rfl⟩, ⟨rfl, rfl, rfl, rfl, rfl, rfl, rfl, rfl, rfl⟩, ⟨rfl, rfl, rfl, rfl, rfl, rfl, rfl, rfl, rfl⟩, ⟨rfl, rfl, rfl, rfl, rfl, rfl, rfl, rfl, rfl⟩⟩

/-- C10: the generic stored-target and session constructors are total (they
return a builder directly, with no error path, unlike the native-operation
constructors whose result type is `Except`): for every input, args is the
empty named container and the entry point is `Custom(name)` for stored
targets and `Call` for session targets, with the corresponding target. -/
theorem stored_and_session_constructors_total (now : Timestamp) (hash : Nat)
    (alias_name : String) (version : Option Nat) (entry_point : String)
    (runtime : TransactionRuntimeParams) (is_install_upgrade : Bool)
    (module_bytes : Bytes) :
    ((TransactionV1Builder.new_targeting_invocable_entity now hash entry_point runtime).args = TransactionArgs.named [] ∧
      (TransactionV1Builder.new_targeting_invocable_entity now hash entry_point runtime).entry_point = TransactionEntryPoint.custom entry_point ∧
      (TransactionV1Builder.new_targeting_invocable_entity now hash entry_point runtime).target = TransactionTarget.stored (TransactionInvocationTarget.byHash hash) runtime) ∧
    ((TransactionV1Builder.new_targeting_invocable_entity_via_alias now alias_name entry_point runtime).args = TransactionArgs.named [] ∧
      (TransactionV1Builder.new_targeting_invocable_entity_via_alias now alias_name entry_point runtime).entry_point = TransactionEntryPoint.custom entry_point ∧
      (TransactionV1Builder.new_targeting_invocable_entity_via_alias now alias_name entry_point runtime).target = TransactionTarget.stored (TransactionInvocationTarget.byName alias_name) runtime) ∧
    ((TransactionV1Builder.new_targeting_package now hash version entry_point runtime).args = TransactionArgs.named [] ∧
      (TransactionV1Builder.new_targeting_package now hash version entry_point runtime).entry_point = TransactionEntryPoint.custom entry_point ∧
      (TransactionV1Builder.new_targeting_package now hash version entry_point runtime).target = TransactionTarget.stored (TransactionInvocationTarget.byPackageHash hash version) runtime) ∧
    ((TransactionV1Builder.new_targeting_package_via_alias now alias_name version entry_point runtime).args = TransactionArgs.named [] ∧
      (TransactionV1Builder.new_targeting_package_via_alias now alias_name version entry_point runtime).entry_point = TransactionEntryPoint.custom entry_point ∧
      (TransactionV1Builder.new_targeting_package_via_alias now alias_name version entry_point runtime).target = TransactionTarget.stored (TransactionInvocationTarget.byPackageName alias_name version) runtime) ∧
    ((TransactionV1Builder.new_session now is_install_upgrade module_bytes runtime).args = TransactionArgs.named [] ∧
      (TransactionV1Builder.new_session now is_install_upgrade module_bytes runtime).entry_point = TransactionEntryPoint.call ∧
      (TransactionV1Builder.new_session now is_install_upgrade module_bytes runtime).target = TransactionTarget.session is_install_upgrade module_bytes runtime) :=
  ⟨⟨rfl, rfl, rfl⟩, ⟨rfl, rfl, rfl⟩, ⟨rfl, rfl, rfl⟩, ⟨rfl, rfl, rfl⟩, ⟨rfl, rfl, rfl⟩⟩


/-- C5: each operation-specific argument constructor produces exactly the
operation's required names plus the names of the optional parameters the
caller supplied, in insertion order, and no others; in particular
`new_add_bid_args` with minimum and maximum supplied and reserved slots
absent yields exactly five names with no "reserved_slots", and
`new_transfer_args` with no source yields no "source" name. -/
theorem arg_constructors_exact_names :
    (∀ amount maybe_source target maybe_id,
      Except.map RuntimeArgs.names (new_transfer_args amount maybe_source target maybe_id) =
        Except.ok ((match maybe_source with | some _ => ["source"] | none => []) ++
          ["target", "amount"] ++
          (match maybe_id with | some _ => ["id"] | none => []))) ∧
    (∀ public_key delegation_rate amount maybe_minimum maybe_maximum maybe_reserved,
      Except.map RuntimeArgs.names
          (new_add_bid_args public_key delegation_rate amount maybe_minimum
            maybe_maximum maybe_reserved) =
        Except.ok (["public_key", "delegation_rate", "amount"] ++
          (match maybe_minimum with | some _ => ["minimum_delegation_amount"] | none => []) ++
          (match maybe_maximum with | some _ => ["maximum_delegation_amount"] | none => []) ++
          (match maybe_reserved with | some _ => ["reserved_slots"] | none => []))) ∧
    (∀ public_key amount,
      Except.map RuntimeArgs.names (new_withdraw_bid_args public_key amount) =
        Except.ok ["public_key", "amount"]) ∧
    (∀ delegator validator amount,
      Except.map RuntimeArgs.names (new_delegate_args delegator validator amount) =
        Except.ok ["delegator", "validator", "amount"]) ∧
    (∀ delegator validator amount,
      Except.map RuntimeArgs.names (new_undelegate_args delegator validator amount) =
        Except.ok ["delegator", "validator", "amount"]) ∧
    (∀ delegator validator amount new_validator,
      Except.map RuntimeArgs.names
          (new_redelegate_args delegator validator amount new_validator) =
        Except.ok ["delegator", "validator", "amount", "new_validator"]) ∧
    (∀ validator,
      Except.map RuntimeArgs.names (new_activate_bid_args validator) =
        Except.ok ["validator"]) ∧
    (∀ public_key new_public_key,
      Except.map RuntimeArgs.names
          (new_change_bid_public_key_args public_key new_public_key) =
        Except.ok ["public_key", "new_public_key"]) ∧
    (∀ reservations,
      Except.map RuntimeArgs.names (new_add_reservations_args reservations) =
        Except.ok ["reservations"]) ∧
    (∀ validator delegators,
      Except.map RuntimeArgs.names (new_cancel_reservations_args validator delegators) =
        Except.ok ["validator", "delegators"]) ∧
    (∀ public_key delegation_rate amount minimum maximum,
      Except.map (fun args => (RuntimeArgs.names args).length)
          (new_add_bid_args public_key delegation_rate amount (some minimum)
            (some maximum) none) =
        Except.ok 5 ∧
      Except.map (fun args => args.get "reserved_slots")
          (new_add_bid_args public_key delegation_rate amount (some minimum)
            (some maximum) none) =
        Except.ok none) ∧
    (∀ amount target maybe_id,
      Except.map (fun args => args.get "source")
          (new_transfer_args amount none target maybe_id) =
        Except.ok none) := by
  refine ⟨?_, ?_, ?_, ?_, ?_, ?_, ?_, ?_, ?_, ?_, ?_, ?_⟩
  · intro amount maybe_source target maybe_id
    cases maybe_source <;> cases maybe_id <;> cases target <;> rfl
  · intro public_key delegation_rate amount maybe_minimum maybe_maximum maybe_reserved
    cases maybe_minimum <;> cases maybe_maximum <;> cases maybe_reserved <;> rfl
  · intro public_key amount
    rfl
  · intro delegator validator amount
    rfl
  · intro delegator validator amount
    rfl
  · intro delegator validator amount new_validator
    rfl
  · intro validator
    rfl
  · intro public_key new_public_key
    rfl
  · intro reservations
    rfl
  · intro validator delegators
    rfl
  · intro public_key delegation_rate amount minimum maximum
    exact ⟨rfl, rfl⟩
  · intro amount target maybe_id
    cases maybe_id <;> cases target <;> rfl

/-- C2: supplying no value to an optional argument slot inserts no name into
the container; the transfer "id" slot inserts an entry wrapped in an
optional marker whenever the call site passed a value, so presence of the
wrapped entry on the wire is distinguishable from absence of the name. -/
theorem optional_slots_and_transfer_id_wrapping :
    (∀ amount target maybe_id,
      Except.map (fun args => args.get "source")
          (new_transfer_args amount none target maybe_id) = Except.ok none) ∧
    (∀ amount maybe_source target,
      Except.map (fun args => args.get "id")
          (new_transfer_args amount maybe_source target none) = Except.ok none) ∧
    (∀ amount maybe_source target id_value,
      Except.map (fun args => args.get "id")
          (new_transfer_args amount maybe_source target (some id_value)) =
        Except.ok (some (CLValue.option (some (CLValue.u64 id_value))))) ∧
    (∀ public_key delegation_rate amount maybe_maximum maybe_reserved,
      Except.map (fun args => args.get "minimum_delegation_amount")
          (new_add_bid_args public_key delegation_rate amount none maybe_maximum
            maybe_reserved) = Except.ok none) ∧
    (∀ public_key delegation_rate amount maybe_minimum maybe_reserved,
      Except.map (fun args => args.get "maximum_delegation_amount")
          (new_add_bid_args public_key delegation_rate amount maybe_minimum none
            maybe_reserved) = Except.ok none) ∧
    (∀ public_key delegation_rate amount maybe_minimum maybe_maximum,
      Except.map (fun args => args.get "reserved_slots")
          (new_add_bid_args public_key delegation_rate amount maybe_minimum
            maybe_maximum none) = Except.ok none) := by
  refine ⟨?_, ?_, ?_, ?_, ?_, ?_⟩
  · intro amount target maybe_id
    cases maybe_id <;> cases target <;> rfl
  · intro amount maybe_source target
    cases maybe_source <;> cases target <;> rfl
  · intro amount maybe_source target id_value
    cases maybe_source <;> cases target <;> rfl
  · intro public_key delegation_rate amount maybe_maximum maybe_reserved
    cases maybe_maximum <;> cases maybe_reserved <;> rfl
  · intro public_key delegation_rate amount maybe_minimum maybe_reserved
    cases maybe_minimum <;> cases maybe_reserved <;> rfl
  · intro public_key delegation_rate amount maybe_minimum maybe_maximum
    cases maybe_minimum <;> cases maybe_maximum <;> rfl

/-- C3: for every fields container, `to_map` either returns the map with
exactly the four keys 0 (args), 1 (target), 2 (entry point), 3 (scheduling)
bound to each field's serialized bytes, or fails with
`CouldNotSerializeField` carrying the key of the first field whose
serialization failed; it never returns a partial map. -/
theorem to_map_all_or_nothing (ext : Externals) (c : FieldsContainer) :
    (∃ args_bytes target_bytes entry_point_bytes scheduling_bytes,
      ext.argsToBytes c.args = Except.ok args_bytes ∧
      ext.targetToBytes c.target = Except.ok target_bytes ∧
      ext.entryPointToBytes c.entry_point = Except.ok entry_point_bytes ∧
      ext.schedulingToBytes c.scheduling = Except.ok scheduling_bytes ∧
      c.to_map ext = Except.ok
        [(ARGS_MAP_KEY, args_bytes), (TARGET_MAP_KEY, target_bytes),
         (ENTRY_POINT_MAP_KEY, entry_point_bytes),
         (SCHEDULING_MAP_KEY, scheduling_bytes)]) ∨
    ((∃ e, ext.argsToBytes c.args = Except.error e) ∧
      c.to_map ext =
        Except.error (FieldsContainerError.couldNotSerializeField ARGS_MAP_KEY)) ∨
    ((∃ e, ext.targetToBytes c.target = Except.error e) ∧
      c.to_map ext =
        Except.error (FieldsContainerError.couldNotSerializeField TARGET_MAP_KEY)) ∨
    ((∃ e, ext.entryPointToBytes c.entry_point = Except.error e) ∧
      c.to_map ext =
        Except.error (FieldsContainerError.couldNotSerializeField ENTRY_POINT_MAP_KEY)) ∨
    ((∃ e, ext.schedulingToBytes c.scheduling = Except.error e) ∧
      c.to_map ext =
        Except.error (FieldsContainerError.couldNotSerializeField SCHEDULING_MAP_KEY)) := by
  rcases h0 : ext.argsToBytes c.args with e0 | b0
  · exact Or.inr (Or.inl ⟨⟨e0, rfl⟩, by simp [FieldsContainer.to_map, h0]⟩)
  rcases h1 : ext.targetToBytes c.target with e1 | b1
  · exact Or.inr (Or.inr (Or.inl ⟨⟨e1, rfl⟩,
      by simp [FieldsContainer.to_map, h0, h1]⟩))
  rcases h2 : ext.entryPointToBytes c.entry_point with e2 | b2
  · exact Or.inr (Or.inr (Or.inr (Or.inl ⟨⟨e2, rfl⟩,
      by simp [FieldsContainer.to_map, h0, h1, h2]⟩)))
  rcases h3 : ext.schedulingToBytes c.scheduling with e3 | b3
  · exact Or.inr (Or.inr (Or.inr (Or.inr ⟨⟨e3, rfl⟩,
      by simp [FieldsContainer.to_map, h0, h1, h2, h3]⟩)))
  refine Or.inl ⟨b0, b1, b2, b3, rfl, rfl, rfl, rfl, ?_⟩
  simp [FieldsContainer.to_map, h0, h1, h2, h3, FieldsMap.insert,
    ARGS_MAP_KEY, TARGET_MAP_KEY, ENTRY_POINT_MAP_KEY, SCHEDULING_MAP_KEY]

/-- C1: `build` with neither an initiator address nor a secret key set fails
with `MissingInitiatorAddr`, whatever the rest of the builder state (in
particular even when the chain name is also missing, so this check comes
first); `build` with an initiator address or a secret key set but no chain
name fails with `MissingChainName`. -/
theorem build_validation_ordering (ext : Externals) (b : TransactionV1Builder) :
    (b.initiator_addr = none → b.secret_key = none →
      b.build ext = Except.error TransactionV1BuilderError.missingInitiatorAddr) ∧
    (b.chain_name = none →
      (b.initiator_addr.isSome = true ∨ b.secret_key.isSome = true) →
      b.build ext = Except.error TransactionV1BuilderError.missingChainName) := by
  constructor
  · intro hia hsk
    simp [TransactionV1Builder.build, TransactionV1Builder.do_build, hia, hsk]
  · intro hcn hsome
    rcases hia : b.initiator_addr with _ | a <;> rcases hsk : b.secret_key with _ | sk
    · rw [hia, hsk] at hsome
      simp at hsome
    all_goals
      simp [TransactionV1Builder.build, TransactionV1Builder.do_build, hia, hsk, hcn]

/-- Witness for C1: a default builder fails with `MissingInitiatorAddr`, and
a default builder with only a secret key set fails with `MissingChainName`. -/
theorem build_validation_ordering_witness :
    (TransactionV1Builder.new 0).build extDemo =
      Except.error TransactionV1BuilderError.missingInitiatorAddr ∧
    ((TransactionV1Builder.new 0).with_secret_key 3).build extDemo =
      Except.error TransactionV1BuilderError.missingChainName :=
  ⟨(build_validation_ordering extDemo (TransactionV1Builder.new 0)).1 rfl rfl,
   (build_validation_ordering extDemo
      ((TransactionV1Builder.new 0).with_secret_key 3)).2 rfl (Or.inr rfl)⟩

/-- C4: initiator resolution at build time.  With both an initiator address
and a secret key, the transaction carries the supplied address and is
signed with the key; with an address only, it is unsigned and carries the
address as given; with a secret key only, the address is the public key
derived from the key and the transaction is signed with it; with neither,
building fails. -/
theorem initiator_resolution (ext : Externals) (b : TransactionV1Builder)
    (cn : String) (hcn : b.chain_name = some cn) (m : FieldsMap)
    (hm : FieldsContainer.to_map ext
      (FieldsContainer.new b.args b.target b.entry_point b.scheduling) = Except.ok m) :
    (∀ a sk, b.initiator_addr = some a → b.secret_key = some sk →
      b.build ext = Except.ok
        ⟨ext.digestHash (ext.payloadToBytes cn b.timestamp b.ttl b.pricing_mode a m),
         ⟨cn, b.timestamp, b.ttl, b.pricing_mode, a, m⟩,
         [⟨ext.publicKeyFromSecret sk, ext.signHash sk (ext.digestHash
            (ext.payloadToBytes cn b.timestamp b.ttl b.pricing_mode a m))⟩]⟩) ∧
    (∀ a, b.initiator_addr = some a → b.secret_key = none →
      b.build ext = Except.ok
        ⟨ext.digestHash (ext.payloadToBytes cn b.timestamp b.ttl b.pricing_mode a m),
         ⟨cn, b.timestamp, b.ttl, b.pricing_mode, a, m⟩, []⟩) ∧
    (∀ sk, b.initiator_addr = none → b.secret_key = some sk →
      b.build ext = Except.ok
        ⟨ext.digestHash (ext.payloadToBytes cn b.timestamp b.ttl b.pricing_mode
            (InitiatorAddr.publicKey (ext.publicKeyFromSecret sk)) m),
         ⟨cn, b.timestamp, b.ttl, b.pricing_mode,
          InitiatorAddr.publicKey (ext.publicKeyFromSecret sk), m⟩,
         [⟨ext.publicKeyFromSecret sk, ext.signHash sk (ext.digestHash
            (ext.payloadToBytes cn b.timestamp b.ttl b.pricing_mode
              (InitiatorAddr.publicKey (ext.publicKeyFromSecret sk)) m))⟩]⟩) ∧
    (b.initiator_addr = none → b.secret_key = none →
      b.build ext = Except.error TransactionV1BuilderError.missingInitiatorAddr) := by
  refine ⟨?_, ?_, ?_, ?_⟩
  · intro a sk hia hsk
    simp [TransactionV1Builder.build, TransactionV1Builder.do_build, hia, hsk, hcn, hm,
      TransactionV1Builder.build_transaction_inner,
      InitiatorAddrAndSecretKey.initiator_addr, InitiatorAddrAndSecretKey.secret_key,
      TransactionV1.sign]
  · intro a hia hsk
    simp [TransactionV1Builder.build, TransactionV1Builder.do_build, hia, hsk, hcn, hm,
      TransactionV1Builder.build_transaction_inner,
      InitiatorAddrAndSecretKey.initiator_addr, InitiatorAddrAndSecretKey.secret_key]
  · intro sk hia hsk
    simp [TransactionV1Builder.build, TransactionV1Builder.do_build, hia, hsk, hcn, hm,
      TransactionV1Builder.build_transaction_inner,
      InitiatorAddrAndSecretKey.initiator_addr, InitiatorAddrAndSecretKey.secret_key,
      TransactionV1.sign]
  · intro hia hsk
    simp [TransactionV1Builder.build, TransactionV1Builder.do_build, hia, hsk]

/-- Witness for C4: a builder with chain name "c", initiator address
`PublicKey 7` and secret key 3 builds, under the demonstration externals, a
signed transaction carrying the supplied address. -/
theorem initiator_resolution_witness :
    ((((TransactionV1Builder.new 0).with_chain_name "c").with_initiator_addr
        (InitiatorAddr.publicKey 7)).with_secret_key 3).build extDemo =
      Except.ok
        ⟨[], ⟨"c", 0, 30 * 60 * 1000, PricingMode.fixed 5 0, InitiatorAddr.publicKey 7,
          [(0, []), (1, []), (2, []), (3, [])]⟩, [⟨3, 1003⟩]⟩ :=
  (initiator_resolution extDemo
    ((((TransactionV1Builder.new 0).with_chain_name "c").with_initiator_addr
      (InitiatorAddr.publicKey 7)).with_secret_key 3) "c" rfl
    [(0, []), (1, []), (2, []), (3, [])] rfl).1
    (InitiatorAddr.publicKey 7) 3 rfl rfl

/-- C6: two builds from identical parameters differing only in the secret
key used for signing yield the same payload, byte-identical payload
serializations and the same content hash (with equal keys this is the
determinism of building twice); the hash is the digest of the payload
serialization alone, never of the approvals, and when the two keys produce
different signer/signature pairs the approval sets differ. -/
theorem hash_and_payload_independent_of_signer (ext : Externals)
    (b : TransactionV1Builder) (a : InitiatorAddr) (sk1 sk2 : SecretKey)
    (ha : b.initiator_addr = some a) (t1 t2 : TransactionV1)
    (h1 : TransactionV1Builder.build ext { b with secret_key := some sk1 } = Except.ok t1)
    (h2 : TransactionV1Builder.build ext { b with secret_key := some sk2 } = Except.ok t2) :
    t1.payload = t2.payload ∧
    ext.payloadToBytes t1.payload.chain_name t1.payload.timestamp t1.payload.ttl
        t1.payload.pricing_mode t1.payload.initiator_addr t1.payload.fields =
      ext.payloadToBytes t2.payload.chain_name t2.payload.timestamp t2.payload.ttl
        t2.payload.pricing_mode t2.payload.initiator_addr t2.payload.fields ∧
    t1.hash = t2.hash ∧
    t1.hash = ext.digestHash (ext.payloadToBytes t1.payload.chain_name
      t1.payload.timestamp t1.payload.ttl t1.payload.pricing_mode
      t1.payload.initiator_addr t1.payload.fields) ∧
    t1.approvals = [⟨ext.publicKeyFromSecret sk1, ext.signHash sk1 t1.hash⟩] ∧
    t2.approvals = [⟨ext.publicKeyFromSecret sk2, ext.signHash sk2 t2.hash⟩] ∧
    ((ext.publicKeyFromSecret sk1 ≠ ext.publicKeyFromSecret sk2 ∨
        ext.signHash sk1 t1.hash ≠ ext.signHash sk2 t2.hash) →
      t1.approvals ≠ t2.approvals) := by
  rcases hcn : b.chain_name with _ | cn
  · rw [TransactionV1Builder.build, TransactionV1Builder.do_build] at h1
    simp [ha, hcn] at h1
  rcases hm : FieldsContainer.to_map ext
      (FieldsContainer.new b.args b.target b.entry_point b.scheduling) with err | m
  · rcases err with ⟨k⟩
    rw [TransactionV1Builder.build, TransactionV1Builder.do_build] at h1
    simp [ha, hcn, hm] at h1
  rw [TransactionV1Builder.build, TransactionV1Builder.do_build] at h1 h2
  simp only [ha, hcn, hm, TransactionV1Builder.build_transaction_inner,
    InitiatorAddrAndSecretKey.initiator_addr, InitiatorAddrAndSecretKey.secret_key,
    TransactionV1.sign, List.not_mem_nil, if_false, List.nil_append,
    Except.ok.injEq] at h1 h2
  subst h1
  subst h2
  refine ⟨rfl, rfl, rfl, rfl, rfl, rfl, ?_⟩
  intro hne heq
  simp only [List.cons.injEq, and_true, Approval.mk.injEq] at heq
  rcases hne with hne | hne
  · exact hne heq.1
  · exact hne heq.2

/-- Witness for C6: under the demonstration externals, builds signed with
keys 1 and 2 share the hash but have different approval sets. -/
theorem hash_and_payload_independent_of_signer_witness :
    (⟨[], ⟨"c", 0, 1800000, PricingMode.fixed 5 0, InitiatorAddr.publicKey 7,
        [(0, []), (1, []), (2, []), (3, [])]⟩, [⟨1, 1001⟩]⟩ : TransactionV1).hash =
      (⟨[], ⟨"c", 0, 1800000, PricingMode.fixed 5 0, InitiatorAddr.publicKey 7,
        [(0, []), (1, []), (2, []), (3, [])]⟩, [⟨2, 1002⟩]⟩ : TransactionV1).hash ∧
    (⟨[], ⟨"c", 0, 1800000, PricingMode.fixed 5 0, InitiatorAddr.publicKey 7,
        [(0, []), (1, []), (2, []), (3, [])]⟩, [⟨1, 1001⟩]⟩ : TransactionV1).approvals ≠
      (⟨[], ⟨"c", 0, 1800000, PricingMode.fixed 5 0, InitiatorAddr.publicKey 7,
        [(0, []), (1, []), (2, []), (3, [])]⟩, [⟨2, 1002⟩]⟩ : TransactionV1).approvals := by
  have h := hash_and_payload_independent_of_signer extDemo
    (((TransactionV1Builder.new 0).with_chain_name "c").with_initiator_addr
      (InitiatorAddr.publicKey 7))
    (InitiatorAddr.publicKey 7) 1 2 rfl
    (⟨[], ⟨"c", 0, 1800000, PricingMode.fixed 5 0, InitiatorAddr.publicKey 7,
      [(0, []), (1, []), (2, []), (3, [])]⟩, [⟨1, 1001⟩]⟩ : TransactionV1)
    (⟨[], ⟨"c", 0, 1800000, PricingMode.fixed 5 0, InitiatorAddr.publicKey 7,
      [(0, []), (1, []), (2, []), (3, [])]⟩, [⟨2, 1002⟩]⟩ : TransactionV1)
    rfl rfl
  exact ⟨h.2.2.1, h.2.2.2.2.2.2 (Or.inl (by decide))⟩

/-- C8: when a deploy's fully serialized size exceeds the configured fixed
maximum, the size check fails with an error reporting both the configured
maximum and the actual computed size, the actual size strictly greater than
the maximum, and no deploy value is returned. -/
theorem oversized_deploy_rejected {α : Type} (deploy : α) (serialized_size : Nat)
    (h : MAX_SERIALIZED_SIZE_OF_DEPLOY < serialized_size) :
    ∃ e, deploy_size_check deploy serialized_size = Except.error e ∧
      e.max_transaction_size = MAX_SERIALIZED_SIZE_OF_DEPLOY ∧
      e.actual_deploy_size = serialized_size ∧
      e.max_transaction_size < e.actual_deploy_size ∧
      ∀ v : α, deploy_size_check deploy serialized_size ≠ Except.ok v := by
  refine ⟨⟨MAX_SERIALIZED_SIZE_OF_DEPLOY, serialized_size⟩, ?_, rfl, rfl, h, ?_⟩
  · simp [deploy_size_check, h]
  · intro v
    simp [deploy_size_check, h]

/-- Witness for C8: a serialized size one byte above the maximum is
rejected with an error carrying 1048576 and 1048577. -/
theorem oversized_deploy_rejected_witness :
    ∃ e, deploy_size_check (42 : Nat) 1048577 = Except.error e ∧
      e.max_transaction_size = MAX_SERIALIZED_SIZE_OF_DEPLOY ∧
      e.actual_deploy_size = 1048577 ∧
      e.max_transaction_size < e.actual_deploy_size ∧
      ∀ v : Nat, deploy_size_check (42 : Nat) 1048577 ≠ Except.ok v :=
  oversized_deploy_rejected 42 1048577 (by decide)
